import Mathlib

/-!
Verification of plugins/modules/postgresql_funcs.py: a shallow embedding of the
module's reconciliation logic (class Function and main) over a small model of
the PostgreSQL catalog, together with theorems settling the specification's
claims about it.
-/

set_option maxRecDepth 4000

namespace PgFuncs

/-- Record of one catalog routine, mirroring the Python dictionary self.info of
class Function (fields owner, language, arguments, return_type, volatile,
is_strict, is_secdef, source; lines 230-239 and 286-295). -/
structure FuncInfo where
  owner : String
  language : String
  arguments : String
  return_type : String
  volatile : String
  is_strict : Bool
  is_secdef : Bool
  source : String
deriving DecidableEq, Repr

/-- The Python value held by the arguments variable at the point it reaches
Function.create: None, an empty list, or the comma-joined string produced by
main lines 551-552. -/
inductive ArgVal
  | pynone
  | pyemptylist
  | pystr (s : String)
deriving DecidableEq, Repr

/-- Python truthiness of the arguments value, as tested by the if-arguments
conditions (main line 551 and create_or_replace line 422). -/
def ArgVal.truthy : ArgVal → Bool
  | ArgVal.pystr s => s != ""
  | _ => false

/-- The string interpolated for arguments into the generated DDL; only reached
when the value is truthy, hence a non-empty string. -/
def ArgVal.render : ArgVal → String
  | ArgVal.pystr s => s
  | _ => ""

/-- Python inequality between the catalog arguments string and the arguments
value (create line 335): a string never equals None or a list. -/
def argNe (info : String) : ArgVal → Bool
  | ArgVal.pystr s => info != s
  | _ => true

/-- Split a character list on a separator character, like Python str.split. -/
def splitOnChar (sep : Char) : List Char → List (List Char)
  | [] => [[]]
  | c :: rest =>
    match splitOnChar sep rest with
    | [] => [[]]
    | h :: t => if c = sep then [] :: h :: t else (c :: h) :: t

/-- Double every double-quote character of an identifier segment. -/
def escapeQuotes : List Char → List Char
  | [] => []
  | c :: rest => if c = '"' then '"' :: '"' :: escapeQuotes rest else c :: escapeQuotes rest

/-- Modelled from the spec: the Identifier Quoter pg_quote_identifier is imported
from module_utils/database.py, which is not among the sources here; per spec
section 4.1 it quotes each dot-separated segment of the name individually
(doubling embedded quote characters) and rejoins the segments with dots. -/
def pg_quote_identifier (name : String) : String :=
  String.intercalate "." ((splitOnChar '.' name.data).map
    (fun seg => "\"" ++ String.mk (escapeQuotes seg) ++ "\""))

/-- The volatility clause of create_or_replace (lines 431-436). -/
def volClause (volatile : String) : String :=
  if volatile == "i" then " IMMUTABLE"
  else if volatile == "s" then " STABLE"
  else if volatile == "v" then " VOLATILE"
  else ""

/-- The STRICT clause of create_or_replace (lines 438-439). -/
def strictClause (is_strict : Bool) : String :=
  if is_strict then " STRICT" else ""

/-- The SECURITY DEFINER clause of create_or_replace (lines 441-442). -/
def secdefClause (is_secdef : Bool) : String :=
  if is_secdef then " SECURITY DEFINER" else ""

/-- The argument-list clause of create_or_replace (lines 422-425). -/
def argClause (args : ArgVal) : String :=
  if args.truthy then "(" ++ args.render ++ ")" else "()"

/-- The CREATE OR REPLACE statement exactly as Function.create_or_replace builds
it by string concatenation (lines 418-444), including the absence of whitespace
before the RETURNS and LANGUAGE keywords. -/
def createOrReplaceQuery (name language return_type source : String) (args : ArgVal)
    (volatile : String) (is_strict is_secdef : Bool) : String :=
  "CREATE OR REPLACE FUNCTION " ++ pg_quote_identifier name
    ++ argClause args
    ++ "RETURNS " ++ return_type
    ++ "LANGUAGE " ++ language
    ++ volClause volatile ++ strictClause is_strict ++ secdefClause is_secdef
    ++ " AS $$" ++ source ++ "$$"

/-- The ALTER FUNCTION OWNER statement of Function.set_owner (lines 391-396);
the role name is interpolated unquoted, as in the source. -/
def setOwnerQuery (name username : String) : String :=
  "ALTER FUNCTION " ++ pg_quote_identifier name ++ " OWNER TO " ++ username

/-- The ALTER FUNCTION RENAME statement of Function.rename (lines 384-389). -/
def renameQuery (name newname : String) : String :=
  "ALTER FUNCTION " ++ pg_quote_identifier name ++ " RENAME TO "
    ++ pg_quote_identifier newname

/-- The DROP FUNCTION statement of Function.drop (lines 402-404). -/
def dropQuery (name : String) (cascade : Bool) : String :=
  "DROP FUNCTION " ++ pg_quote_identifier name ++ (if cascade then " CASCADE" else "")

/-- The mutating statements the module can issue, carrying the data each one was
built from; stmtQuery renders the exact SQL text of the source. -/
inductive Stmt
  | replace (name language return_type source : String) (args : ArgVal)
      (volatile : String) (is_strict is_secdef : Bool)
  | setOwner (name username : String)
  | ren (name newname : String)
  | drop (name : String) (cascade : Bool)
deriving DecidableEq, Repr

/-- The SQL text of a statement, exactly as the Python code builds it. -/
def stmtQuery : Stmt → String
  | Stmt.replace name language return_type source args volatile is_strict is_secdef =>
      createOrReplaceQuery name language return_type source args volatile is_strict is_secdef
  | Stmt.setOwner name username => setOwnerQuery name username
  | Stmt.ren name newname => renameQuery name newname
  | Stmt.drop name cascade => dropQuery name cascade

/-- Schema and local-name resolution of Function.__exists_in_db (lines 250-255):
the second-to-last and last dot-separated segments, defaulting to public. -/
def splitName (name : String) : String × String :=
  let parts := splitOnChar '.' name.data
  if parts.length ≥ 2 then
    (String.mk (parts.getD (parts.length - 2) []), String.mk (parts.getLastD []))
  else ("public", name)

abbrev FuncKey := String × String

/-- Model of the catalog's plain-function table: one record per qualified name,
matching the single-row read the module performs. -/
abbrev Catalog := List (FuncKey × FuncInfo)

def catLookup (c : Catalog) (k : FuncKey) : Option FuncInfo :=
  match c.find? (fun p => p.1 == k) with
  | some p => some p.2
  | Option.none => Option.none

def catInsert (c : Catalog) (k : FuncKey) (v : FuncInfo) : Catalog :=
  match c with
  | [] => [(k, v)]
  | (k2, v2) :: rest => if k2 == k then (k, v) :: rest else (k2, v2) :: catInsert rest k v

def catRemove (c : Catalog) (k : FuncKey) : Catalog :=
  c.filter (fun p => p.1 != k)

/-- The catalog read of Function.__exists_in_db (lines 257-300): the single row
for the plain function with this name in the resolved schema, if any. -/
def inspect (c : Catalog) (name : String) : Option FuncInfo :=
  catLookup c (splitName name)

/-- Environment model: how the external catalog answers each generated statement.
CREATE OR REPLACE upserts the record (a newly created routine is owned by the
session role, modelled as postgres, and a zero-argument routine renders an empty
signature); ALTER OWNER, ALTER RENAME and DROP fail on a missing object.
Overloads collapse onto one entry per qualified name, matching the single-match
inspection the module itself performs. -/
def applyStmt (c : Catalog) : Stmt → Except String Catalog
  | Stmt.replace name language return_type source args volatile is_strict is_secdef =>
      let k := splitName name
      let newOwner := match catLookup c k with
        | some old => old.owner
        | Option.none => "postgres"
      Except.ok (catInsert c k
        { owner := newOwner, language := language,
          arguments := if args.truthy then args.render else "",
          return_type := return_type, volatile := volatile,
          is_strict := is_strict, is_secdef := is_secdef, source := source })
  | Stmt.setOwner name username =>
      let k := splitName name
      match catLookup c k with
      | some old => Except.ok (catInsert c k { old with owner := username })
      | Option.none => Except.error ("function " ++ name ++ " does not exist")
  | Stmt.ren name newname =>
      let k := splitName name
      match catLookup c k with
      | some old => Except.ok (catInsert (catRemove c k) (splitName newname) old)
      | Option.none => Except.error ("function " ++ name ++ " does not exist")
  | Stmt.drop name _ =>
      let k := splitName name
      match catLookup c k with
      | some _ => Except.ok (catRemove c k)
      | Option.none => Except.error ("function " ++ name ++ " does not exist")

/-- The exec_sql driver behaviour visible to this module (spec sections 4.6 and
7): each statement is recorded verbatim when issued, then executed; a database
error aborts the run with the failing statement already issued. -/
def execStmts (c : Catalog) : List Stmt → List String × Except String Catalog
  | [] => ([], Except.ok c)
  | s :: rest =>
    match applyStmt c s with
    | Except.ok c2 =>
        let r := execStmts c2 rest
        (stmtQuery s :: r.1, r.2)
    | Except.error e => ([stmtQuery s], Except.error e)

/-- Result of Function.create: ret carries the Python return value (an error for
fail_json, some bool from the exists branch, and Python None — Option.none —
from the fall-through creation branch, which has no return statement), plus the
statements issued and the warnings emitted, in order. -/
structure CreateOut where
  ret : Except String (Option Bool)
  stmts : List Stmt
  warnings : List String
deriving Repr

/-- The warning of Function.create line 336. -/
def overloadWarning : String :=
  "Cannot change arguments of existing function. A new distinct function will be created. See postgresql function overloading for more information."

/-- The fail_json message of Function.create lines 321-326. -/
def returnTypeErrMsg : String :=
  "Cannot change return type of existing function. Please drop and recreate the function."

/-- Function.create (lines 302-382). In the exists branch the owner statement is
issued at line 329, before the conditional replace at line 355; in the
non-exists branch the replace is issued first and the method then falls through
without returning. -/
def FunctionCreate (name : String) (ex : Bool) (info : FuncInfo)
    (language return_type source : String) (args : ArgVal) (volatile : String)
    (is_strict is_secdef : Bool) (owner : String) : CreateOut :=
  if ex then
    if info.return_type != return_type then
      { ret := Except.error returnTypeErrMsg, stmts := [], warnings := [] }
    else
      let ownerChange := owner != "" && info.owner != owner
      let replace_function :=
        (info.language != language) || argNe info.arguments args
          || (info.volatile != volatile) || (info.is_strict != is_strict)
          || (info.is_secdef != is_secdef) || (info.source != source)
      { ret := Except.ok (some (ownerChange || replace_function)),
        stmts :=
          (if ownerChange then [Stmt.setOwner name owner] else [])
            ++ (if replace_function then
                  [Stmt.replace name language return_type source args volatile is_strict is_secdef]
                else []),
        warnings := if argNe info.arguments args then [overloadWarning] else [] }
  else
    { ret := Except.ok Option.none,
      stmts :=
        [Stmt.replace name language return_type source args volatile is_strict is_secdef]
          ++ (if owner != "" then [Stmt.setOwner name owner] else []),
      warnings := [] }

/-- Function.drop (lines 398-405): no statement at all when the object does not
exist; exec_sql returns true on success. -/
def FunctionDrop (name : String) (ex : Bool) (cascade : Bool) : Bool × List Stmt :=
  if ex then (true, [Stmt.drop name cascade]) else (false, [])

/-- Input record for main() after argument parsing; an empty string stands for
an unsupplied optional string parameter (Python None), matching Python
truthiness tests on those parameters. -/
structure MainInput where
  func : String
  state : String := "present"
  owner : String := ""
  rename : String := ""
  language : String := ""
  return_type : String := ""
  source : String := ""
  arguments : Option (List String) := Option.none
  volatile : String := ""
  is_strict : Bool := false
  is_security_definer : Bool := false
  cascade : Bool := false
  check_mode : Bool := false
deriving DecidableEq, Repr

/-- main lines 551-552: join the argument list only when it is truthy. -/
def normalizeArgs : Option (List String) → ArgVal
  | Option.none => ArgVal.pynone
  | some [] => ArgVal.pyemptylist
  | some (a :: rest) => ArgVal.pystr (String.intercalate ", " (a :: rest))

/-- Python str.upper for the volatility word (ASCII). -/
def pyUpper (s : String) : String :=
  String.mk (s.data.map Char.toUpper)

/-- main lines 553-559: map the volatility word to its single-letter catalog
code, defaulting to v. -/
def normalizeVolatile (v : String) : String :=
  if v != "" then
    if pyUpper v == "IMMUTABLE" then "i" else if pyUpper v == "STABLE" then "s" else "v"
  else "v"

/-- Truthiness of the present-only parameters, as tested by the two
mutual-exclusion checks of main (lines 513-542). -/
def presentAttrsSet (inp : MainInput) : Bool :=
  inp.language != "" || inp.return_type != "" || inp.source != "" || inp.volatile != ""
    || inp.is_strict || inp.is_security_definer || inp.owner != ""

/-- The fail_json message of main lines 523-527. -/
def absentExclMsg (func : String) : String :=
  func ++ ": state=absent is mutually exclusive with: language, return_type, source, volatile, strict, security_definer, owner"

/-- The fail_json message of main lines 538-542. -/
def renameExclMsg (func : String) : String :=
  func ++ ": rename is mutually exclusive with: language, return_type, source, volatile, strict, security_definer, owner"

/-- The mutual-exclusion checks of main (lines 513-542), run before connecting. -/
def exclusionFail (inp : MainInput) : Option String :=
  if inp.state == "absent" && (inp.rename != "" || presentAttrsSet inp) then
    some (absentExclMsg inp.func)
  else if inp.rename != "" && presentAttrsSet inp then
    some (renameExclMsg inp.func)
  else Option.none

/-- Python truthiness of the changed variable, which holds None, False or True. -/
def pyTruthy : Option Bool → Bool
  | some b => b
  | Option.none => false

/-- The initial self.info dictionary before inspection finds a row (lines
230-239): all fields empty. -/
def defaultInfo : FuncInfo :=
  { owner := "", language := "", arguments := "", return_type := "", volatile := "",
    is_strict := false, is_secdef := false, source := "" }

/-- Outcome of one main() invocation: the fail_json message if the run aborted,
the final Python changed value, the executed statements in order, the warnings,
the reported state string and record (kw), and the catalog state that is
actually committed when the connection closes. -/
structure MainResult where
  failed : Option String
  changed : Option Bool
  queries : List String
  warnings : List String
  kw_state : String
  record : Option FuncInfo
  committed : Catalog
deriving DecidableEq, Repr

/-- The dispatch of main lines 585-600: drop for absent, rename when a new name
is given, otherwise create. The owner module parameter is not forwarded to
Function.create, exactly as in the source (lines 592-600). -/
def dispatchOut (inp : MainInput) (ex : Bool) (info : FuncInfo) :
    Except String (Option Bool) × List Stmt × List String :=
  if inp.state == "absent" then
    (Except.ok (some (FunctionDrop inp.func ex inp.cascade).1),
      (FunctionDrop inp.func ex inp.cascade).2, [])
  else if inp.rename != "" then
    (Except.ok (some true), [Stmt.ren inp.func inp.rename], [])
  else if inp.state == "present" then
    let co := FunctionCreate inp.func ex info inp.language inp.return_type inp.source
      (normalizeArgs inp.arguments) (normalizeVolatile inp.volatile)
      inp.is_strict inp.is_security_definer ""
    (co.ret, co.stmts, co.warnings)
  else (Except.ok (some false), [], [])

/-- The tail of main (lines 602-632): execute the statements inside the
transaction, then, only when changed is truthy, roll back (check mode) or
commit, re-inspect through the same connection, commit again, and rebuild kw;
a falsy changed skips all of that, so the transaction is discarded on close. -/
def finishRun (func : String) (check_mode : Bool) (c0 : Catalog)
    (kw0 : String × Option FuncInfo)
    (d : Except String (Option Bool) × List Stmt × List String) : MainResult :=
  match d.1 with
  | Except.error msg =>
      { failed := some msg, changed := some false, queries := [], warnings := d.2.2,
        kw_state := kw0.1, record := kw0.2, committed := c0 }
  | Except.ok chg =>
      let er := execStmts c0 d.2.1
      match er.2 with
      | Except.error emsg =>
          { failed := some emsg, changed := some false, queries := er.1, warnings := d.2.2,
            kw_state := kw0.1, record := kw0.2, committed := c0 }
      | Except.ok ctxn =>
          if pyTruthy chg then
            let cfinal := if check_mode then c0 else ctxn
            match inspect cfinal func with
            | some i2 =>
                { failed := Option.none, changed := chg, queries := er.1, warnings := d.2.2,
                  kw_state := "present", record := some i2, committed := cfinal }
            | Option.none =>
                { failed := Option.none, changed := chg, queries := er.1, warnings := d.2.2,
                  kw_state := "absent", record := kw0.2, committed := cfinal }
          else
            { failed := Option.none, changed := chg, queries := er.1, warnings := d.2.2,
              kw_state := kw0.1, record := kw0.2, committed := c0 }

/-- main() from the mutual-exclusion checks onward, without the cascade warning:
check exclusions, inspect, dispatch, execute and finish. -/
def mainRunBody (inp : MainInput) (c0 : Catalog) : MainResult :=
  match exclusionFail inp with
  | some msg =>
      { failed := some msg, changed := some false, queries := [], warnings := [],
        kw_state := "", record := Option.none, committed := c0 }
  | Option.none =>
      match inspect c0 inp.func with
      | some info =>
          finishRun inp.func inp.check_mode c0 ("present", some info)
            (dispatchOut inp true info)
      | Option.none =>
          finishRun inp.func inp.check_mode c0 ("", Option.none)
            (dispatchOut inp false defaultInfo)

/-- The warning of main lines 509-510. -/
def cascadeWarn (inp : MainInput) : List String :=
  if inp.state == "present" && inp.cascade then
    ["cascade=true is ignored when state=present"]
  else []

/-- One full main() invocation against a catalog state. -/
def mainRun (inp : MainInput) (c0 : Catalog) : MainResult :=
  let r := mainRunBody inp c0
  { r with warnings := cascadeWarn inp ++ r.warnings }

/-- Scan a character list for the first two-dollar delimiter; returns the text
before it and the remainder after it. -/
def splitDollars : List Char → Option (List Char × List Char)
  | [] => Option.none
  | [_] => Option.none
  | c :: d :: rest =>
      if c = '$' ∧ d = '$' then some ([], rest)
      else
        match splitDollars (d :: rest) with
        | some p => some (c :: p.1, p.2)
        | Option.none => Option.none

/-- The body a dialect lexer extracts from a rendered statement: the text
between the first delimiter pair. -/
def parsedBody (q : String) : Option String :=
  match splitDollars q.data with
  | some p =>
      match splitDollars p.2 with
      | some r => some (String.mk r.1)
      | Option.none => Option.none
  | Option.none => Option.none

/-- No dollar character occurs in the string. -/
def noDollar (s : String) : Bool :=
  s.data.all (fun ch => ch != '$')

/-! Concrete inputs and catalog states used by the theorems below. -/

/-- The specification's creation scenario: desired myfunc in plpgsql, two
arguments, object currently absent. -/
def scenarioInput : MainInput :=
  { func := "myfunc", state := "present", language := "plpgsql", return_type := "integer",
    source := "BEGIN RETURN 1; END;", arguments := some ["a integer", "b integer"] }

/-- A desired state whose arguments parameter is omitted (Python None). -/
def omittedArgsInput : MainInput :=
  { func := "myfunc", state := "present", language := "plpgsql", return_type := "integer",
    source := "BEGIN RETURN 1; END;" }

/-- The catalog record a successful zero-argument creation of myfunc leaves
behind: the rendered signature of a routine without arguments is empty. -/
def convergedInfo : FuncInfo :=
  { owner := "postgres", language := "plpgsql", arguments := "", return_type := "integer",
    volatile := "v", is_strict := false, is_secdef := false, source := "BEGIN RETURN 1; END;" }

/-- A catalog already converged with omittedArgsInput. -/
def convergedCatalog : Catalog := [(("public", "myfunc"), convergedInfo)]

/-- A rename request for an object that does not exist. -/
def renameAbsentInput : MainInput := { func := "myfunc", rename := "newfunc" }

/-- An existing record owned by bob with the old body. -/
def oldBodyInfo : FuncInfo :=
  { owner := "bob", language := "plpgsql", arguments := "a integer",
    return_type := "integer", volatile := "v", is_strict := false, is_secdef := false,
    source := "BEGIN RETURN 1; END;" }

/-- A catalog holding oldBodyInfo under public.myfunc. -/
def oldBodyCatalog : Catalog := [(("public", "myfunc"), oldBodyInfo)]

/-- A present-mode request that needs both an owner change (alice vs bob) and a
body change against oldBodyCatalog. -/
def ownerAndBodyInput : MainInput :=
  { func := "myfunc", state := "present", owner := "alice", language := "plpgsql",
    return_type := "integer", source := "BEGIN RETURN 2; END;",
    arguments := some ["a integer"] }

/-- A check-mode request changing the body against oldBodyCatalog. -/
def checkModeInput : MainInput :=
  { func := "myfunc", state := "present", language := "plpgsql", return_type := "integer",
    source := "BEGIN RETURN 2; END;", arguments := some ["a integer"], check_mode := true }

/-- A converged desired state with a supplied non-empty argument list (for the
amended idempotence claim). -/
def suppliedArgsInput : MainInput :=
  { func := "myfunc", state := "present", language := "plpgsql", return_type := "integer",
    source := "BEGIN RETURN 1; END;", arguments := some ["a integer"] }

/-- The record matching suppliedArgsInput. -/
def suppliedArgsInfo : FuncInfo :=
  { owner := "postgres", language := "plpgsql", arguments := "a integer",
    return_type := "integer", volatile := "v", is_strict := false, is_secdef := false,
    source := "BEGIN RETURN 1; END;" }

/-- A catalog already converged with suppliedArgsInput. -/
def suppliedArgsCatalog : Catalog := [(("public", "myfunc"), suppliedArgsInfo)]

/-- A present-mode request against an existing object with a different return
type. -/
def retTypeInput : MainInput :=
  { func := "myfunc", state := "present", language := "plpgsql", return_type := "text",
    source := "BEGIN RETURN 1; END;", arguments := some ["a integer"] }

/-- A present-mode request with a narrower argument signature than the stored
one (the overload scenario). -/
def overloadInput : MainInput :=
  { func := "myfunc", state := "present", language := "plpgsql", return_type := "integer",
    source := "BEGIN RETURN 1; END;", arguments := some ["a integer"] }

/-- The stored record with the wider two-argument signature. -/
def twoArgInfo : FuncInfo :=
  { owner := "postgres", language := "plpgsql", arguments := "a integer, b integer",
    return_type := "integer", volatile := "v", is_strict := false, is_secdef := false,
    source := "BEGIN RETURN 1; END;" }

/-- A catalog holding twoArgInfo under public.myfunc. -/
def twoArgCatalog : Catalog := [(("public", "myfunc"), twoArgInfo)]

/-- A present-mode request carrying cascade=true. -/
def cascadePresentInput : MainInput :=
  { func := "myfunc", state := "present", language := "plpgsql", return_type := "integer",
    source := "BEGIN RETURN 1; END;", arguments := some ["a integer"], cascade := true }

/-! Helper lemmas shared by the claim theorems. -/

/-- Scanning a clean prefix (no dollar characters) followed by the delimiter
finds exactly that prefix. -/
theorem splitDollars_clean (r : List Char) :
    ∀ (l : List Char), (∀ ch ∈ l, ch ≠ '$') →
      splitDollars (l ++ '$' :: '$' :: r) = some (l, r) := by
  intro l
  induction l with
  | nil => intro _; simp [splitDollars]
  | cons c t ih =>
      intro h
      have hc : c ≠ '$' := h c (List.mem_cons_self c t)
      have ht : ∀ ch ∈ t, ch ≠ '$' := fun ch hm => h ch (List.mem_cons_of_mem c hm)
      cases t with
      | nil =>
          simp [splitDollars, hc]
      | cons d t2 =>
          have := ih ht
          simp only [List.cons_append] at this ⊢
          simp [splitDollars, hc, this]

theorem noDollar_append (a b : String) :
    noDollar (a ++ b) = (noDollar a && noDollar b) := by
  simp [noDollar, String.data_append, List.all_append]

theorem string_mk_data (s : String) : String.mk s.data = s := by
  cases s
  rfl

/-- A statement ending in a dollar-quoted body parses back to that body when
neither the prefix nor the body contains a dollar character. -/
theorem parsedBody_append (a b : String)
    (ha : noDollar a = true) (hb : noDollar b = true) :
    parsedBody (a ++ " AS $$" ++ b ++ "$$") = some b := by
  have hmema : ∀ ch ∈ a.data ++ [' ', 'A', 'S', ' '], ch ≠ '$' := by
    intro ch hm
    rcases List.mem_append.mp hm with hm1 | hm2
    · have := List.all_eq_true.mp ha ch hm1
      simpa [bne_iff_ne] using this
    · fin_cases hm2 <;> decide
  have hmemb : ∀ ch ∈ b.data, ch ≠ '$' := by
    intro ch hm
    have := List.all_eq_true.mp hb ch hm
    simpa [bne_iff_ne] using this
  have hdata : (a ++ " AS $$" ++ b ++ "$$").data
      = (a.data ++ [' ', 'A', 'S', ' ']) ++ '$' :: '$' :: (b.data ++ '$' :: '$' :: []) := by
    simp [String.data_append]
  unfold parsedBody
  rw [hdata, splitDollars_clean _ _ hmema]
  simp [splitDollars_clean [] b.data hmemb, string_mk_data]

/-- A check-mode finish leaves the committed catalog untouched and reports
either the initial kw record or the pre-change inspection result. -/
theorem finishRun_check (func : String) (c : Catalog) (s : String) (rec : Option FuncInfo)
    (d : Except String (Option Bool) × List Stmt × List String) :
    (finishRun func true c (s, rec) d).committed = c
      ∧ ((finishRun func true c (s, rec) d).record = rec
          ∨ (finishRun func true c (s, rec) d).record = inspect c func) := by
  obtain ⟨d1, stmts, ws⟩ := d
  cases d1 with
  | error msg => exact ⟨rfl, Or.inl rfl⟩
  | ok chg =>
      rcases hER : execStmts c stmts with ⟨qs, res⟩
      simp only [finishRun, hER]
      cases res with
      | error e => exact ⟨rfl, Or.inl rfl⟩
      | ok ctxn =>
          cases hp : pyTruthy chg with
          | false => simp
          | true =>
              simp only [if_true]
              cases hI : inspect c func with
              | some i2 => simp [hI]
              | none => simp [hI]

/-! Theorems settling the claims. -/

/-- Claim C1: in present mode with the object absent, the run does issue exactly
one CREATE OR REPLACE statement, but Function.create falls through without a
return statement, so main sees changed None: the module reports no change, never
commits (the creation is rolled back when the connection closes), and the
returned record is not the desired state. -/
theorem c1_create_path_issues_one_statement_but_reports_no_change :
    (mainRun scenarioInput []).queries
        = [createOrReplaceQuery "myfunc" "plpgsql" "integer" "BEGIN RETURN 1; END;"
            (ArgVal.pystr "a integer, b integer") "v" false false]
      ∧ (mainRun scenarioInput []).changed = Option.none
      ∧ (mainRun scenarioInput []).committed = []
      ∧ (mainRun scenarioInput []).record = Option.none := by decide

/-- Claim C2 is false as stated: with the arguments parameter omitted, the
catalog's empty signature string never equals Python None, so even a fully
converged state is replaced again on every run — the second run still reports a
change and issues a statement. -/
theorem c2_counterexample_second_run_still_changes :
    (mainRun omittedArgsInput convergedCatalog).committed = convergedCatalog
      ∧ (mainRun omittedArgsInput
            (mainRun omittedArgsInput convergedCatalog).committed).changed = some true
      ∧ (mainRun omittedArgsInput
            (mainRun omittedArgsInput convergedCatalog).committed).queries ≠ [] := by decide

/-- Claim C3 is false as stated: in rename mode with the object absent, a rename
statement is still issued (neither main nor Function.rename checks existence)
and the run fails at the database instead of being a no-op. -/
theorem c3_counterexample_rename_issued_when_absent :
    (mainRun renameAbsentInput []).queries = [renameQuery "myfunc" "newfunc"]
      ∧ (mainRun renameAbsentInput []).failed.isSome = true := by decide

/-- Claim C4: main never forwards the owner parameter to Function.create, so a
present-mode run needing both an owner change and a body change issues only the
CREATE OR REPLACE statement and leaves the owner untouched; and when
Function.create itself is handed an owner, it issues the ALTER OWNER statement
before the replace, not after it. -/
theorem c4_owner_never_applied_in_present_mode :
    (mainRun ownerAndBodyInput oldBodyCatalog).queries
        = [createOrReplaceQuery "myfunc" "plpgsql" "integer" "BEGIN RETURN 2; END;"
            (ArgVal.pystr "a integer") "v" false false]
      ∧ (inspect (mainRun ownerAndBodyInput oldBodyCatalog).committed "myfunc").map
            FuncInfo.owner = some "bob"
      ∧ (FunctionCreate "myfunc" true oldBodyInfo "plpgsql" "integer"
            "BEGIN RETURN 2; END;" (ArgVal.pystr "a integer") "v" false false
            "alice").stmts
          = [Stmt.setOwner "myfunc" "alice",
             Stmt.replace "myfunc" "plpgsql" "integer" "BEGIN RETURN 2; END;"
               (ArgVal.pystr "a integer") "v" false false] := by decide

/-- Claim C6 is false as stated: in check mode the rollback is issued before the
verifying re-inspection (main lines 602-609), so the reported record still
carries the old body, not the hypothetical post-change state; the real catalog
is indeed unchanged. -/
theorem c6_counterexample_reinspection_sees_old_state :
    (mainRun checkModeInput oldBodyCatalog).changed = some true
      ∧ (mainRun checkModeInput oldBodyCatalog).record.map FuncInfo.source
          = some "BEGIN RETURN 1; END;"
      ∧ (mainRun checkModeInput oldBodyCatalog).record.map FuncInfo.source
          ≠ some checkModeInput.source := by decide

/-- Claim C7: the statement rendered for the creation scenario lacks the
whitespace between the argument list and RETURNS and between the return type
and LANGUAGE (create_or_replace lines 427-429 concatenate those clauses
directly), so it does not conform to the dialect grammar. -/
theorem c7_rendered_statement_lacks_clause_whitespace :
    createOrReplaceQuery "myfunc" "plpgsql" "integer" "BEGIN RETURN 1; END;"
        (ArgVal.pystr "a integer, b integer") "v" false false
      = "CREATE OR REPLACE FUNCTION \"myfunc\"(a integer, b integer)RETURNS integerLANGUAGE plpgsql VOLATILE AS $$BEGIN RETURN 1; END;$$" := by decide

/-- Claim C8 is false as stated: the builder always wraps the body in the fixed
two-dollar delimiter, so a body containing that delimiter terminates the
payload early — the body a lexer extracts from the rendered statement is a
proper prefix of the source text. -/
theorem c8_counterexample_delimiter_collision :
    parsedBody (createOrReplaceQuery "myfunc" "plpgsql" "integer" "a$$b"
        (ArgVal.pystr "a integer") "v" false false) = some "a"
      ∧ ("a" : String) ≠ "a$$b" := by decide

/-- Claim C2 amended: idempotence does hold when a non-empty argument list is
supplied whose join equals the stored signature and every other compared field
matches the stored record: the second run reports changed false, issues no
statement and leaves the catalog unchanged. -/
theorem c2_amended_idempotent_with_supplied_arguments
    (inp : MainInput) (c : Catalog) (info : FuncInfo)
    (hstate : inp.state = "present") (hren : inp.rename = "")
    (hlook : inspect c inp.func = some info)
    (hargs : normalizeArgs inp.arguments = ArgVal.pystr info.arguments)
    (hl : info.language = inp.language) (hrt : info.return_type = inp.return_type)
    (hsrc : info.source = inp.source) (hv : info.volatile = normalizeVolatile inp.volatile)
    (hs : info.is_strict = inp.is_strict) (hsd : info.is_secdef = inp.is_security_definer) :
    (mainRun inp c).changed = some false ∧ (mainRun inp c).queries = []
      ∧ (mainRun inp c).committed = c := by
  have hex : exclusionFail inp = Option.none := by simp [exclusionFail, hstate, hren]
  have hco : FunctionCreate inp.func true info inp.language inp.return_type inp.source
      (normalizeArgs inp.arguments) (normalizeVolatile inp.volatile)
      inp.is_strict inp.is_security_definer "" =
      { ret := Except.ok (some false), stmts := [], warnings := [] } := by
    simp [FunctionCreate, hargs, argNe, hl, hrt, hsrc, hv, hs, hsd]
  simp [mainRun, mainRunBody, hex, hlook, dispatchOut, hstate, hren, hco, finishRun,
    execStmts, pyTruthy, cascadeWarn]

/-- Witness for the amended claim C2 at a concrete converged state. -/
theorem c2_amended_idempotence_witness :
    (mainRun suppliedArgsInput suppliedArgsCatalog).changed = some false
      ∧ (mainRun suppliedArgsInput suppliedArgsCatalog).queries = []
      ∧ (mainRun suppliedArgsInput suppliedArgsCatalog).committed = suppliedArgsCatalog :=
  c2_amended_idempotent_with_supplied_arguments suppliedArgsInput suppliedArgsCatalog
    suppliedArgsInfo rfl rfl (by decide) (by decide) rfl rfl rfl (by decide) rfl rfl

/-- Claim C3 amended: in rename mode (state present, present-only attributes
unset) the rename statement is issued unconditionally, whatever the catalog
holds; when the object does not exist the run fails at the database instead of
being a no-op. -/
theorem c3_amended_rename_unconditional (inp : MainInput) (c : Catalog)
    (hstate : inp.state = "present") (hren : inp.rename ≠ "")
    (hl : inp.language = "") (hrt : inp.return_type = "") (hsrc : inp.source = "")
    (hv : inp.volatile = "") (hs : inp.is_strict = false)
    (hsd : inp.is_security_definer = false) (ho : inp.owner = "") :
    (mainRun inp c).queries = [renameQuery inp.func inp.rename]
      ∧ ((inspect c inp.func).isNone → (mainRun inp c).failed.isSome = true) := by
  have hex : exclusionFail inp = Option.none := by
    simp [exclusionFail, presentAttrsSet, hstate, hl, hrt, hsrc, hv, hs, hsd, ho]
  have hrenb : (inp.rename != "") = true := by simp [bne_iff_ne, hren]
  cases hI : inspect c inp.func with
  | some info =>
      have hI2 : catLookup c (splitName inp.func) = some info := hI
      simp [mainRun, mainRunBody, hex, hI, hI2, dispatchOut, hstate, hrenb, finishRun,
        execStmts, applyStmt, stmtQuery, pyTruthy, cascadeWarn]
      split <;> simp
  | none =>
      have hI2 : catLookup c (splitName inp.func) = Option.none := hI
      simp [mainRun, mainRunBody, hex, hI, hI2, dispatchOut, hstate, hrenb, finishRun,
        execStmts, applyStmt, stmtQuery, pyTruthy, cascadeWarn]

/-- Witness for the amended claim C3 at a concrete absent object. -/
theorem c3_amended_rename_witness :
    (mainRun renameAbsentInput []).queries
        = [renameQuery renameAbsentInput.func renameAbsentInput.rename]
      ∧ ((inspect ([] : Catalog) renameAbsentInput.func).isNone
          → (mainRun renameAbsentInput []).failed.isSome = true) :=
  c3_amended_rename_unconditional renameAbsentInput []
    rfl (by decide) rfl rfl rfl rfl rfl rfl rfl

/-- Claim C5: when the object exists and its return type differs from the
desired one, the run aborts with the fatal message before building or issuing
any statement, and the catalog is left untouched. -/
theorem c5_return_type_change_fatal_before_any_statement
    (inp : MainInput) (c : Catalog) (info : FuncInfo)
    (hstate : inp.state = "present") (hren : inp.rename = "")
    (hlook : inspect c inp.func = some info)
    (hrt : info.return_type ≠ inp.return_type) :
    (mainRun inp c).failed = some returnTypeErrMsg
      ∧ (mainRun inp c).queries = [] ∧ (mainRun inp c).committed = c := by
  have hex : exclusionFail inp = Option.none := by
    simp [exclusionFail, hstate, hren]
  have hco : FunctionCreate inp.func true info inp.language inp.return_type inp.source
      (normalizeArgs inp.arguments) (normalizeVolatile inp.volatile)
      inp.is_strict inp.is_security_definer "" =
      { ret := Except.error returnTypeErrMsg, stmts := [], warnings := [] } := by
    simp [FunctionCreate, bne_iff_ne, hrt]
  simp [mainRun, mainRunBody, hex, hlook, dispatchOut, hstate, hren, hco, finishRun,
    cascadeWarn]

/-- Witness for claim C5 at a concrete return-type mismatch. -/
theorem c5_return_type_witness :
    (mainRun retTypeInput oldBodyCatalog).failed = some returnTypeErrMsg
      ∧ (mainRun retTypeInput oldBodyCatalog).queries = []
      ∧ (mainRun retTypeInput oldBodyCatalog).committed = oldBodyCatalog :=
  c5_return_type_change_fatal_before_any_statement retTypeInput oldBodyCatalog oldBodyInfo
    rfl rfl (by decide) (by decide)

/-- Claim C6 amended: a check-mode run never changes the committed catalog, and
any record it reports comes from the pre-change catalog (it is absent or the
pre-invocation inspection result), because the rollback is issued before the
verifying re-inspection rather than at the end. -/
theorem c6_amended_check_mode_preserves_catalog (inp : MainInput) (c : Catalog)
    (h : inp.check_mode = true) :
    (mainRun inp c).committed = c
      ∧ ((mainRun inp c).record = Option.none
          ∨ (mainRun inp c).record = inspect c inp.func) := by
  suffices hb : (mainRunBody inp c).committed = c
      ∧ ((mainRunBody inp c).record = Option.none
          ∨ (mainRunBody inp c).record = inspect c inp.func) from hb
  unfold mainRunBody
  rw [h]
  cases hE : exclusionFail inp with
  | some msg => simp
  | none =>
      cases hI : inspect c inp.func with
      | some info =>
          have H := finishRun_check inp.func c "present" (some info) (dispatchOut inp true info)
          rw [hI] at H
          exact ⟨H.1, Or.inr (H.2.elim id id)⟩
      | none =>
          have H := finishRun_check inp.func c "" Option.none (dispatchOut inp false defaultInfo)
          rw [hI] at H
          exact ⟨H.1, Or.inl (H.2.elim id id)⟩

/-- Witness for the amended claim C6 at a concrete check-mode change. -/
theorem c6_amended_check_mode_witness :
    (mainRun checkModeInput oldBodyCatalog).committed = oldBodyCatalog :=
  (c6_amended_check_mode_preserves_catalog checkModeInput oldBodyCatalog rfl).1

/-- Claim C8 amended: the builder always uses the fixed two-dollar delimiter
with no collision check; whenever the rendered prefix fields and the body
contain no dollar character at all, the body is embedded opaquely and parses
back exactly. -/
theorem c8_amended_opaque_when_no_dollar
    (name language return_type source : String) (args : ArgVal)
    (volatile : String) (is_strict is_secdef : Bool)
    (hq : noDollar (pg_quote_identifier name) = true)
    (hac : noDollar (argClause args) = true)
    (hrt : noDollar return_type = true) (hlang : noDollar language = true)
    (hsrc : noDollar source = true) :
    parsedBody (createOrReplaceQuery name language return_type source args volatile
        is_strict is_secdef) = some source := by
  have hvol : noDollar (volClause volatile) = true := by
    unfold volClause
    split
    · decide
    · split
      · decide
      · split <;> decide
  have hstr : noDollar (strictClause is_strict) = true := by
    cases is_strict <;> decide
  have hsec : noDollar (secdefClause is_secdef) = true := by
    cases is_secdef <;> decide
  have hA : noDollar ("CREATE OR REPLACE FUNCTION " ++ pg_quote_identifier name
      ++ argClause args ++ "RETURNS " ++ return_type ++ "LANGUAGE " ++ language
      ++ volClause volatile ++ strictClause is_strict ++ secdefClause is_secdef) = true := by
    simp [noDollar_append, hq, hac, hrt, hlang, hvol, hstr, hsec]
    decide
  exact parsedBody_append _ source hA hsrc

/-- Witness for the amended claim C8 at a concrete dollar-free body. -/
theorem c8_amended_opaque_witness :
    parsedBody (createOrReplaceQuery "myfunc" "plpgsql" "integer" "BEGIN RETURN 1; END;"
        (ArgVal.pystr "a integer") "v" false false) = some "BEGIN RETURN 1; END;" :=
  c8_amended_opaque_when_no_dollar "myfunc" "plpgsql" "integer" "BEGIN RETURN 1; END;"
    (ArgVal.pystr "a integer") "v" false false
    (by decide) (by decide) (by decide) (by decide) (by decide)

/-- Claim C9: when the object exists, the return type is unchanged and the
argument signature differs, the run surfaces the overload warning (not an
error) and still issues the CREATE OR REPLACE statement. -/
theorem c9_overload_warning_and_replace (inp : MainInput) (c : Catalog) (info : FuncInfo)
    (hstate : inp.state = "present") (hren : inp.rename = "")
    (hlook : inspect c inp.func = some info)
    (hrt : info.return_type = inp.return_type)
    (hargs : argNe info.arguments (normalizeArgs inp.arguments) = true) :
    overloadWarning ∈ (mainRun inp c).warnings
      ∧ createOrReplaceQuery inp.func inp.language inp.return_type inp.source
          (normalizeArgs inp.arguments) (normalizeVolatile inp.volatile)
          inp.is_strict inp.is_security_definer ∈ (mainRun inp c).queries
      ∧ (mainRun inp c).failed = Option.none := by
  have hex : exclusionFail inp = Option.none := by simp [exclusionFail, hstate, hren]
  have hco : FunctionCreate inp.func true info inp.language inp.return_type inp.source
      (normalizeArgs inp.arguments) (normalizeVolatile inp.volatile)
      inp.is_strict inp.is_security_definer "" =
      { ret := Except.ok (some true),
        stmts := [Stmt.replace inp.func inp.language inp.return_type inp.source
          (normalizeArgs inp.arguments) (normalizeVolatile inp.volatile)
          inp.is_strict inp.is_security_definer],
        warnings := [overloadWarning] } := by
    simp [FunctionCreate, hargs, hrt]
  simp [mainRun, mainRunBody, hex, hlook, dispatchOut, hstate, hren, hco, finishRun,
    execStmts, pyTruthy, cascadeWarn, applyStmt, stmtQuery]
  refine ⟨Or.inr ?_, ?_, ?_⟩ <;> (split <;> simp)

/-- Witness for claim C9 at a concrete narrowed signature. -/
theorem c9_overload_witness :
    overloadWarning ∈ (mainRun overloadInput twoArgCatalog).warnings
      ∧ createOrReplaceQuery overloadInput.func overloadInput.language
          overloadInput.return_type overloadInput.source
          (normalizeArgs overloadInput.arguments) (normalizeVolatile overloadInput.volatile)
          overloadInput.is_strict overloadInput.is_security_definer
          ∈ (mainRun overloadInput twoArgCatalog).queries
      ∧ (mainRun overloadInput twoArgCatalog).failed = Option.none :=
  c9_overload_warning_and_replace overloadInput twoArgCatalog twoArgInfo
    rfl rfl (by decide) rfl (by decide)

/-- Claim C10: with state present and cascade true, the module warns that
cascade is ignored, and the issued statements, the reported change and the
committed catalog are identical to the run with cascade false. -/
theorem c10_cascade_warned_and_ignored_in_present_mode (inp : MainInput) (c : Catalog)
    (hstate : inp.state = "present") (hc : inp.cascade = true) :
    "cascade=true is ignored when state=present" ∈ (mainRun inp c).warnings
      ∧ (mainRun inp c).queries = (mainRun { inp with cascade := false } c).queries
      ∧ (mainRun inp c).changed = (mainRun { inp with cascade := false } c).changed
      ∧ (mainRun inp c).committed = (mainRun { inp with cascade := false } c).committed := by
  obtain ⟨f, st, ow, rn, lg, rt, src, ar, vo, istr, isd, casc, chk⟩ := inp
  simp only [MainInput.state] at hstate
  simp only [MainInput.cascade] at hc
  subst hstate
  subst hc
  refine ⟨?_, ?_, ?_, ?_⟩
  · simp [mainRun, cascadeWarn]
  all_goals
    simp [mainRun, mainRunBody, exclusionFail, dispatchOut, cascadeWarn, presentAttrsSet]

/-- Witness for claim C10 at a concrete present-mode request with cascade. -/
theorem c10_cascade_witness :
    "cascade=true is ignored when state=present" ∈ (mainRun cascadePresentInput []).warnings :=
  (c10_cascade_warned_and_ignored_in_present_mode cascadePresentInput [] rfl rfl).1

end PgFuncs
